import Mathlib

set_option maxHeartbeats 1000000
set_option autoImplicit false

/-!
Shallow embedding of the VetPath frontend components and of the
spec-described matching/gap engine, for checking the design spec
against the code.
-/

/-- Model of the JavaScript String.prototype.trim method, acting on the
underlying character list: drop whitespace from both ends. -/
def jsTrim (s : String) : String :=
  ⟨((s.data.dropWhile Char.isWhitespace).reverse.dropWhile Char.isWhitespace).reverse⟩

/-- Model of the JavaScript String.prototype.toLowerCase method on the
underlying character list. -/
def jsToLower (s : String) : String :=
  ⟨s.data.map Char.toLower⟩

/-- Model of JavaScript Math.round on rationals: round half away towards
positive infinity. -/
def jsRound (q : ℚ) : ℤ :=
  ⌊q + 1 / 2⌋

/-- Readiness object returned by getReadinessLevel in the frontend:
a level label, a color key and a message. -/
structure Readiness where
  level : String
  color : String
  message : String
deriving DecidableEq

/-- getReadinessLevel from the current GapAnalysis component
(src/frontend/src/components/GapAnalysis.jsx lines 62-67). -/
def getReadinessLevel (pct : ℚ) : Readiness :=
  if pct ≥ 85 then ⟨"Highly Qualified", "green", "You\x27re well-prepared for this role!"⟩
  else if pct ≥ 70 then ⟨"Qualified", "blue", "You meet most requirements."⟩
  else if pct ≥ 50 then ⟨"Partially Qualified", "yellow", "Some skill development needed."⟩
  else ⟨"Development Needed", "orange", "Consider a stepping-stone position."⟩

/-- getReadinessLevel from the older GapAnalysis copy kept in the repository
(the component following LoadingSpinner.jsx, lines 126-131): identical
except that the lowest band uses the color red instead of orange. -/
def getReadinessLevelOld (pct : ℚ) : Readiness :=
  if pct ≥ 85 then ⟨"Highly Qualified", "green", "You\x27re well-prepared for this role!"⟩
  else if pct ≥ 70 then ⟨"Qualified", "blue", "You meet most requirements."⟩
  else if pct ≥ 50 then ⟨"Partially Qualified", "yellow", "Some skill development needed."⟩
  else ⟨"Development Needed", "red", "Consider a stepping-stone position."⟩

/-- Leadership summary inside a parsed skill record (level, scope, context). -/
structure Leadership where
  level : String
  scope : String
  context : String
deriving DecidableEq

/-- The skills state object handled by the frontend (SkillsReview and
GapAnalysis components).  The three category fields are the skill lists;
a JavaScript object with the field absent behaves as the empty list at
every reachable use site (the components guard each spread with
`x || []`, and removeSkill is reachable only through a rendered tag of
an existing list). -/
structure SkillSet where
  technical_skills : List String
  soft_skills : List String
  transferable_skills : List String
  leadership : Option Leadership
  years_experience : Option String
  asset_responsibility : Option String
  security_clearance : Option String
  certifications : List String
deriving DecidableEq

/-- The three skill categories used by the SkillsReview tag list. -/
inductive SkillType where
  | technical
  | soft
  | transferable
deriving DecidableEq

/-- removeSkill from SkillsReview.jsx (lines 26-31): replace the
`type`_skills list by the entries that are not string-equal to the
removed skill; every other field is spread through unchanged. -/
def removeSkill (st : SkillSet) (skillToRemove : String) : SkillType → SkillSet
  | .technical =>
      { st with technical_skills := st.technical_skills.filter (fun s => s ≠ skillToRemove) }
  | .soft =>
      { st with soft_skills := st.soft_skills.filter (fun s => s ≠ skillToRemove) }
  | .transferable =>
      { st with transferable_skills := st.transferable_skills.filter (fun s => s ≠ skillToRemove) }

/-- addSkill from SkillsReview.jsx (lines 33-42): when the entered text is
non-blank after trimming, append the trimmed text to transferable_skills;
otherwise leave the state unchanged.  No duplicate check is performed. -/
def addSkill (st : SkillSet) (newSkill : String) : SkillSet :=
  if jsTrim newSkill ≠ "" then
    { st with transferable_skills := st.transferable_skills ++ [jsTrim newSkill] }
  else st

/-- A skill-category list satisfies the spec data-model invariant when no
two entries are equal case-insensitively. -/
def caseInsensitiveNodup (l : List String) : Prop :=
  (l.map jsToLower).Nodup

instance (l : List String) : Decidable (caseInsensitiveNodup l) :=
  inferInstanceAs (Decidable (l.map jsToLower).Nodup)

/-- Combined skill list built by SkillsReview.handleConfirm
(SkillsReview.jsx lines 50-54) and sent to the match operation:
technical, then soft, then transferable. -/
def allSkillsForMatch (s : SkillSet) : List String :=
  s.technical_skills ++ s.soft_skills ++ s.transferable_skills

/-- Combined skill list built by GapAnalysis.fetchAnalysis
(GapAnalysis.jsx lines 22-26) and sent to the gap-analysis operation:
technical, then soft, then transferable. -/
def allSkillsForGaps (s : SkillSet) : List String :=
  s.technical_skills ++ s.soft_skills ++ s.transferable_skills

/-- Modelled from the spec: the Skill Normalizer normalize operation (spec 4.1) is part of the
backend services, which are absent from src; normalize trims whitespace,
case-folds, and collapses internal whitespace runs to a single space. -/
def normalizeSkill (s : String) : String :=
  String.intercalate " " (((jsToLower s).split Char.isWhitespace).filter (fun w => w ≠ ""))

/-- Modelled from the spec: the veteran canonical skill set (spec 4.2
step 1 and 4.3 step 1) - skills normalized and deduplicated, as a set. -/
def canonSet (skills : List String) : Finset String :=
  (skills.map normalizeSkill).toFinset

/-- Modelled from the spec: skill_match_score (spec 4.2 step 3), absent
from src with the backend matcher service; 100 times the canonical-form
intersection size over the number of required skills, and 0 when the
occupation has no required skills. -/
def skill_match_score (vet req : List String) : ℚ :=
  if req.isEmpty then 0
  else (100 * ((canonSet vet ∩ canonSet req).card : ℚ)) / ((canonSet req).card : ℚ)

/-- An occupation record from the catalog (spec section 3). -/
structure OccupationRecord where
  occupation_code : String
  occupation_title : String
  description : String
  industry : String
  education_required : String
  job_outlook : String
  median_wage : Option ℚ
  required_skills : List String

/-- A match result (spec section 3): occupation code, score, and the
record carried along for display. -/
structure MatchResult where
  occupation_code : String
  skill_match_score : ℚ
  record : OccupationRecord

/-- Insert a match result into a list sorted descending by score, after
every element of not-smaller score, so that catalog order is kept among
equal scores. -/
def insertByScore (x : MatchResult) : List MatchResult → List MatchResult
  | [] => [x]
  | y :: ys =>
      if y.skill_match_score < x.skill_match_score then x :: y :: ys
      else y :: insertByScore x ys

/-- Stable insertion sort, descending by score. -/
def rankMatches : List MatchResult → List MatchResult
  | [] => []
  | x :: xs => insertByScore x (rankMatches xs)

/-- Modelled from the spec: the Career Matcher operation (spec 4.2),
absent from src with the backend matcher service; score every occupation
of the catalog and rank descending with stable ties. -/
def matchCareers (vet : List String) (catalog : List OccupationRecord) : List MatchResult :=
  rankMatches (catalog.map (fun o =>
    { occupation_code := o.occupation_code
      skill_match_score := skill_match_score vet o.required_skills
      record := o }))

/-- A training recommendation entry (spec section 3). -/
structure TrainingRecommendation where
  certification : String
  skill_gap : String
  estimated_time : String
  cost : String
  provider : Option String
  va_eligible : Bool
deriving DecidableEq

/-- The structured gap report (spec section 3); narrative fields are
optional, absent when the language-model capability is unavailable. -/
structure GapReport where
  match_percentage : ℚ
  gaps : List String
  estimated_time_to_ready : String
  recommendations : List TrainingRecommendation
  development_summary : Option String
  development_steps : Option (List String)
  resource_suggestions : Option (List String)

/-- Result of the opaque narrative-generation capability
(summary, steps, resources), or none when unavailable. -/
structure Narrative where
  summary : String
  steps : List String
  resources : List String

/-- Modelled from the spec: the Gap Analyzer operation (spec 4.3), absent
from src with the backend gaps service.  The training-resource lookup,
the time estimator and the narrative capability are collaborator inputs;
a none narrative is the unavailable case and leaves the structural parts
intact. -/
def analyzeGapsOp (lookup : String → List TrainingRecommendation)
    (estTime : List String → String) (narrative : Option Narrative)
    (vet : List String) (o : OccupationRecord) : GapReport :=
  { match_percentage := skill_match_score vet o.required_skills
    gaps := o.required_skills.filter (fun r => normalizeSkill r ∉ canonSet vet)
    estimated_time_to_ready := estTime (o.required_skills.filter (fun r => normalizeSkill r ∉ canonSet vet))
    recommendations :=
      ((o.required_skills.filter (fun r => normalizeSkill r ∉ canonSet vet)).map lookup).flatten
    development_summary := narrative.map Narrative.summary
    development_steps := narrative.map Narrative.steps
    resource_suggestions := narrative.map Narrative.resources }

/-- The analysis object as the current GapAnalysis component consumes it:
every field may be absent (the component reads each one through optional
chaining). -/
structure Analysis where
  match_percentage : Option ℚ
  estimated_time_to_ready : Option String
  gaps : Option (List String)
  recommendations : Option (List TrainingRecommendation)
  development_summary : Option String
  development_steps : Option (List String)
  resource_suggestions : Option (List String)
deriving DecidableEq

/-- JavaScript truthiness of an optional string: present and non-empty. -/
def truthyStr : Option String → Bool
  | some s => s ≠ ""
  | none => false

/-- JavaScript guard x and x.length greater than 0 on an optional list. -/
def presentNonempty {α : Type} : Option (List α) → Bool
  | some l => ¬ l.isEmpty
  | none => false

/-- percentage in GapAnalysis.jsx line 70: match_percentage with 0 as the
fallback of the JavaScript or-operator. -/
def jsPct (a : Analysis) : ℚ :=
  (a.match_percentage).getD 0

/-- The numeric score shown in GapAnalysis.jsx line 137: Math.round of
percentage. -/
def displayedPercent (a : Analysis) : ℤ :=
  jsRound (jsPct a)

/-- Condition of the Skills-Gaps card (GapAnalysis.jsx line 156). -/
def showGapsCard (a : Analysis) : Bool :=
  presentNonempty a.gaps

/-- Condition of the Training-Recommendations card (GapAnalysis.jsx
line 178). -/
def showRecsCard (a : Analysis) : Bool :=
  presentNonempty a.recommendations

/-- Condition of the AI Development-Plan card (GapAnalysis.jsx
lines 195-197): summary truthy, or steps non-empty, or resources
non-empty. -/
def showDevPlanCard (a : Analysis) : Bool :=
  truthyStr a.development_summary
    || presentNonempty a.development_steps
    || presentNonempty a.resource_suggestions

/-- What the GapAnalysis component renders at top level. -/
inductive GapView where
  | spinner
  | errorCard (msg : String)
  | report (percent : ℤ) (readiness : Readiness)
      (showGaps showRecs showDevPlan : Bool)
deriving DecidableEq

/-- Top-level render branching of the current GapAnalysis component
(GapAnalysis.jsx lines 38-60 and 81-233): the loading spinner, the error
card for a request error, and otherwise the report with the readiness
score section always present and the optional cards guarded as in the
markup. -/
def renderGapAnalysis (loading : Bool) (error : Option String) (a : Analysis) : GapView :=
  if loading then .spinner
  else
    match error with
    | some e => .errorCard e
    | none =>
        .report (displayedPercent a) (getReadinessLevel (jsPct a))
          (showGapsCard a) (showRecsCard a) (showDevPlanCard a)

/-- An analysis with the three narrative fields absent, the rest as in
the given one: the shape delivered when the narrative capability is
unavailable. -/
def stripNarrative (a : Analysis) : Analysis :=
  { a with
    development_summary := none
    development_steps := none
    resource_suggestions := none }

/-- The readiness-score section of the current GapAnalysis component
(GapAnalysis.jsx lines 62-79 and 102-153): the band computed from the
percentage, the rounded numeric display, and the analysis object, which
the markup only reads. -/
def scoreSection (a : Analysis) : Readiness × ℤ × Analysis :=
  (getReadinessLevel (jsPct a), jsRound (jsPct a), a)

/-- A match entry as the CareerMatches views consume it. -/
structure MatchItem where
  occupation_code : String
  occupation_title : String
  description : String
  industry : String
  job_outlook : String
  median_wage : Option ℚ
  skill_match_score : ℚ
  required_skills : List String
deriving DecidableEq

/-- filteredMatches of the current CareerMatches component
(src/unnamed/part_002 lines 10-13): keep a match unless a specific
industry is selected and differs from the match. -/
def filteredMatches (industryFilter : String) (ms : List MatchItem) : List MatchItem :=
  ms.filter (fun m =>
    if industryFilter ≠ "all" ∧ m.industry ≠ industryFilter then false
    else true)

/-- filteredMatches of the older CareerMatches copy (the component after
the project README, lines 384-391): industry condition plus three
minimum-salary conditions; a missing median_wage compares as 0, as the
JavaScript number coercion of null does. -/
def filteredMatchesOld (industryFilter salaryFilter : String) (ms : List MatchItem) :
    List MatchItem :=
  ms.filter (fun m =>
    if industryFilter ≠ "all" ∧ m.industry ≠ industryFilter then false
    else if salaryFilter = "50k" ∧ (m.median_wage).getD 0 < 50000 then false
    else if salaryFilter = "75k" ∧ (m.median_wage).getD 0 < 75000 then false
    else if salaryFilter = "100k" ∧ (m.median_wage).getD 0 < 100000 then false
    else true)

/-- Identifiers in scope in the body of the current CareerMatches
component (src/unnamed/part_002): module imports and module-level
declarations, the props, and the single useState pair; there is no
salary-filter state in this version. -/
def careerMatchesScope : List String :=
  ["React", "useState", "CareerMatches", "CareerCard",
   "matches", "onSelectCareer", "onBack",
   "industryFilter", "setIndustryFilter",
   "industries", "filteredMatches"]

/-- Identifiers referenced by the Reset-filters click handler of the
current CareerMatches component (src/unnamed/part_002 lines 72-75), in
evaluation order. -/
def resetFiltersHandlerRefs : List String :=
  ["setIndustryFilter", "setSalaryFilter"]

/-- Filter state of the current CareerMatches component. -/
structure CMState where
  industryFilter : String
deriving DecidableEq

/-- Evaluation of the Reset-filters click handler under JavaScript
scoping: the first statement calls setIndustryFilter, setting the filter
state to all; the second statement evaluates the identifier
setSalaryFilter, which raises a ReferenceError when it is not in scope. -/
def runResetFiltersHandler (st : CMState) : Except String CMState :=
  if "setIndustryFilter" ∈ careerMatchesScope then
    if "setSalaryFilter" ∈ careerMatchesScope then
      Except.ok { st with industryFilter := "all" }
    else Except.error "ReferenceError: setSalaryFilter is not defined"
  else Except.error "ReferenceError: setIndustryFilter is not defined"

/-- A concrete match entry used as an explicit input below. -/
def sampleMatch : MatchItem :=
  { occupation_code := "17-2112.00"
    occupation_title := "Industrial Engineers"
    description := "Design efficient systems."
    industry := "technology"
    job_outlook := "Faster than average"
    median_wage := some 99380
    skill_match_score := 67
    required_skills := ["Logistics"] }

/-- A concrete skills state used as an explicit input below. -/
def sampleSkillSet : SkillSet :=
  { technical_skills := []
    soft_skills := []
    transferable_skills := ["Leadership"]
    leadership := none
    years_experience := none
    asset_responsibility := none
    security_clearance := none
    certifications := [] }

/-- Filtering a list keeps the case-insensitive no-duplicate invariant. -/
lemma caseInsensitiveNodup_filter (l : List String) (p : String → Bool)
    (h : caseInsensitiveNodup l) : caseInsensitiveNodup (l.filter p) :=
  List.Nodup.sublist ((List.filter_sublist l).map jsToLower) h

/-- Appending one new entry whose lowercase form is not yet present keeps
the case-insensitive no-duplicate invariant. -/
lemma caseInsensitiveNodup_append_single (l : List String) (a : String)
    (h : caseInsensitiveNodup l) (ha : jsToLower a ∉ l.map jsToLower) :
    caseInsensitiveNodup (l ++ [a]) := by
  unfold caseInsensitiveNodup at h ⊢
  simp only [List.map_append, List.map_cons, List.map_nil, List.nodup_append,
    List.nodup_cons, List.nodup_nil, List.disjoint_singleton]
  exact ⟨h, by simp, by simpa using ha⟩

/-- C2: readiness banding with inclusive lower bounds - the level label
of getReadinessLevel is Highly Qualified exactly on percentages at least
85, Qualified exactly on seventy up to but excluding 85, Partially
Qualified exactly on fifty up to but excluding seventy, Development
Needed exactly below fifty. -/
theorem readiness_banding (p : ℚ) :
    ((getReadinessLevel p).level = "Highly Qualified" ↔ 85 ≤ p) ∧
    ((getReadinessLevel p).level = "Qualified" ↔ 70 ≤ p ∧ p < 85) ∧
    ((getReadinessLevel p).level = "Partially Qualified" ↔ 50 ≤ p ∧ p < 70) ∧
    ((getReadinessLevel p).level = "Development Needed" ↔ p < 50) := by
  unfold getReadinessLevel
  split_ifs with h1 h2 h3 <;>
    refine ⟨?_, ?_, ?_, ?_⟩ <;> constructor <;> intro h <;>
      first
        | rfl
        | linarith
        | linarith [h.1, h.2]
        | exact absurd h (by decide)
        | (exfalso; linarith)
        | (exfalso; linarith [h.1, h.2])
        | exact ⟨by linarith, by linarith⟩

/-- C8: the two copies of getReadinessLevel in the repository agree on
the level label and the message for every percentage (they differ only
in the color of the lowest band). -/
theorem readiness_versions_agree (p : ℚ) :
    (getReadinessLevel p).level = (getReadinessLevelOld p).level ∧
    (getReadinessLevel p).message = (getReadinessLevelOld p).message := by
  unfold getReadinessLevel getReadinessLevelOld
  split_ifs <;> exact ⟨rfl, rfl⟩

/-- C10: removeSkill replaces exactly the targeted category list by its
entries not string-equal to the removed skill, keeping their order (the
filter equation), is a subsequence of the original list, and leaves the
two other category lists and every other field unchanged. -/
theorem removeSkill_frame (st : SkillSet) (sk : String) :
    ((removeSkill st sk .technical).technical_skills
        = st.technical_skills.filter (fun s => s ≠ sk) ∧
      (removeSkill st sk .technical).technical_skills.Sublist st.technical_skills ∧
      (removeSkill st sk .technical).soft_skills = st.soft_skills ∧
      (removeSkill st sk .technical).transferable_skills = st.transferable_skills) ∧
    ((removeSkill st sk .soft).soft_skills
        = st.soft_skills.filter (fun s => s ≠ sk) ∧
      (removeSkill st sk .soft).soft_skills.Sublist st.soft_skills ∧
      (removeSkill st sk .soft).technical_skills = st.technical_skills ∧
      (removeSkill st sk .soft).transferable_skills = st.transferable_skills) ∧
    ((removeSkill st sk .transferable).transferable_skills
        = st.transferable_skills.filter (fun s => s ≠ sk) ∧
      (removeSkill st sk .transferable).transferable_skills.Sublist st.transferable_skills ∧
      (removeSkill st sk .transferable).technical_skills = st.technical_skills ∧
      (removeSkill st sk .transferable).soft_skills = st.soft_skills) ∧
    (∀ t : SkillType,
      (removeSkill st sk t).leadership = st.leadership ∧
      (removeSkill st sk t).years_experience = st.years_experience ∧
      (removeSkill st sk t).asset_responsibility = st.asset_responsibility ∧
      (removeSkill st sk t).security_clearance = st.security_clearance ∧
      (removeSkill st sk t).certifications = st.certifications) := by
  refine ⟨⟨rfl, List.filter_sublist _, rfl, rfl⟩,
    ⟨rfl, List.filter_sublist _, rfl, rfl⟩,
    ⟨rfl, List.filter_sublist _, rfl, rfl⟩, ?_⟩
  intro t
  cases t <;> exact ⟨rfl, rfl, rfl, rfl, rfl⟩

/-- C4 counterexample: starting from a state whose transferable list
holds Leadership (capital L) and no duplicates, addSkill with the
lowercase variant leadership leaves a case-insensitive duplicate in the
stored sequence, refuting the claim as stated. -/
theorem addSkill_duplicate_counterexample :
    caseInsensitiveNodup sampleSkillSet.transferable_skills ∧
    ¬ caseInsensitiveNodup ((addSkill sampleSkillSet "leadership").transferable_skills) := by
  constructor
  · decide
  · decide

/-- C4 amended: removeSkill always preserves the case-insensitive
no-duplicate invariant of all three category lists, and addSkill
preserves it exactly when the lowercase form of the trimmed entry is not
already present in transferable_skills; an add of an already-present
case variant is not deduplicated (see the counterexample). -/
theorem skillset_edit_invariant (st : SkillSet) (sk : String) (t : SkillType)
    (ht : caseInsensitiveNodup st.technical_skills)
    (hs : caseInsensitiveNodup st.soft_skills)
    (htr : caseInsensitiveNodup st.transferable_skills)
    (hnew : jsToLower (jsTrim sk) ∉ st.transferable_skills.map jsToLower) :
    (caseInsensitiveNodup (removeSkill st sk t).technical_skills ∧
     caseInsensitiveNodup (removeSkill st sk t).soft_skills ∧
     caseInsensitiveNodup (removeSkill st sk t).transferable_skills) ∧
    (caseInsensitiveNodup (addSkill st sk).technical_skills ∧
     caseInsensitiveNodup (addSkill st sk).soft_skills ∧
     caseInsensitiveNodup (addSkill st sk).transferable_skills) := by
  constructor
  · cases t
    · exact ⟨caseInsensitiveNodup_filter _ _ ht, hs, htr⟩
    · exact ⟨ht, caseInsensitiveNodup_filter _ _ hs, htr⟩
    · exact ⟨ht, hs, caseInsensitiveNodup_filter _ _ htr⟩
  · unfold addSkill
    split_ifs with hcond
    · exact ⟨ht, hs, caseInsensitiveNodup_append_single _ _ htr hnew⟩
    · exact ⟨ht, hs, htr⟩

/-- Witness for the amended C4 theorem at a concrete state and skill. -/
theorem skillset_edit_invariant_witness :
    (caseInsensitiveNodup (removeSkill sampleSkillSet "Teamwork" SkillType.transferable).technical_skills ∧
     caseInsensitiveNodup (removeSkill sampleSkillSet "Teamwork" SkillType.transferable).soft_skills ∧
     caseInsensitiveNodup (removeSkill sampleSkillSet "Teamwork" SkillType.transferable).transferable_skills) ∧
    (caseInsensitiveNodup (addSkill sampleSkillSet "Teamwork").technical_skills ∧
     caseInsensitiveNodup (addSkill sampleSkillSet "Teamwork").soft_skills ∧
     caseInsensitiveNodup (addSkill sampleSkillSet "Teamwork").transferable_skills) :=
  skillset_edit_invariant sampleSkillSet "Teamwork" SkillType.transferable
    (by decide) (by decide) (by decide) (by decide)

/-- C3: the score of an occupation with no required skills is 0 for any
veteran skills; in general the score is the explicit coverage formula
over canonical-form sets; and every score lies between 0 and 100. -/
theorem skill_match_score_spec (vet req : List String) :
    skill_match_score vet [] = 0 ∧
    skill_match_score vet req =
      (if req.isEmpty then 0
       else (100 * ((canonSet vet ∩ canonSet req).card : ℚ)) / ((canonSet req).card : ℚ)) ∧
    0 ≤ skill_match_score vet req ∧
    skill_match_score vet req ≤ 100 := by
  refine ⟨rfl, rfl, ?_, ?_⟩
  · unfold skill_match_score
    split_ifs
    · exact le_refl 0
    · positivity
  · unfold skill_match_score
    split_ifs with h
    · norm_num
    · have hne : req ≠ [] := by
        intro hh
        rw [hh] at h
        exact h rfl
      have hnonempty : (canonSet req).Nonempty := by
        cases req with
        | nil => exact absurd rfl hne
        | cons a as =>
            exact ⟨normalizeSkill a, by simp [canonSet]⟩
      have hcard : 0 < ((canonSet req).card : ℚ) := by
        exact_mod_cast Finset.card_pos.mpr hnonempty
      rw [div_le_iff₀ hcard]
      have hle : ((canonSet vet ∩ canonSet req).card : ℚ) ≤ ((canonSet req).card : ℚ) := by
        exact_mod_cast Finset.card_le_card Finset.inter_subset_right
      linarith

/-- C1: the two frontend call sites build the identical combined skill
list (technical, then soft, then transferable) for the match operation
and the gap-analysis operation, and for the same veteran skills and
occupation the gap report match_percentage coincides with the score the
matcher assigns, also as the score of the single ranked result when the
occupation is matched alone. -/
theorem cross_component_consistency (s : SkillSet)
    (lookup : String → List TrainingRecommendation) (estTime : List String → String)
    (narrative : Option Narrative) (vet : List String) (o : OccupationRecord) :
    allSkillsForMatch s = allSkillsForGaps s ∧
    (analyzeGapsOp lookup estTime narrative vet o).match_percentage =
      skill_match_score vet o.required_skills ∧
    (matchCareers vet [o]).map MatchResult.skill_match_score =
      [skill_match_score vet o.required_skills] :=
  ⟨rfl, rfl, rfl⟩

/-- C5: with no request error the GapAnalysis component renders the
report with the score section always present; the development-plan card
shows exactly when some narrative field is present and non-empty; and
stripping all narrative fields changes nothing of the numeric and
structural parts - it only hides the development-plan card, and is still
rendered as a report, never as an error. -/
theorem gap_report_graceful_degradation (a : Analysis) :
    renderGapAnalysis false none a =
      GapView.report (displayedPercent a) (getReadinessLevel (jsPct a))
        (showGapsCard a) (showRecsCard a) (showDevPlanCard a) ∧
    (showDevPlanCard a = true ↔
      (∃ s, a.development_summary = some s ∧ s ≠ "") ∨
      (∃ l, a.development_steps = some l ∧ l ≠ []) ∨
      (∃ l, a.resource_suggestions = some l ∧ l ≠ [])) ∧
    renderGapAnalysis false none (stripNarrative a) =
      GapView.report (displayedPercent a) (getReadinessLevel (jsPct a))
        (showGapsCard a) (showRecsCard a) false := by
  refine ⟨rfl, ?_, rfl⟩
  cases hsum : a.development_summary <;>
    cases hsteps : a.development_steps <;>
      cases hres : a.resource_suggestions <;>
        simp [showDevPlanCard, truthyStr, presentNonempty, hsum, hsteps, hres,
          List.isEmpty_iff, or_assoc]

/-- C6: both versions of the career-matches view filter the ranked list
with Array.prototype.filter, so the shown list is an order-preserving
subsequence of the input for every filter state, and with every filter
set to all it is the input list itself. -/
theorem ui_filtering_subsequence (ms : List MatchItem) (f g : String) :
    (filteredMatches f ms).Sublist ms ∧
    (filteredMatchesOld f g ms).Sublist ms ∧
    filteredMatches "all" ms = ms ∧
    filteredMatchesOld "all" "all" ms = ms := by
  refine ⟨List.filter_sublist ms, List.filter_sublist ms, ?_, ?_⟩
  · unfold filteredMatches
    rw [List.filter_eq_self]
    intro m _
    simp
  · unfold filteredMatchesOld
    rw [List.filter_eq_self]
    intro m _
    simp

/-- C7: the readiness-score section is presentation only - it passes the
analysis through unchanged (in particular its match_percentage), and the
numeric value displayed is the rounded match_percentage (0 when absent),
a formula that never consults the band. -/
theorem readiness_presentation_only (a : Analysis) :
    (scoreSection a).2.2 = a ∧
    (scoreSection a).2.2.match_percentage = a.match_percentage ∧
    (scoreSection a).1 = getReadinessLevel (jsPct a) ∧
    (scoreSection a).2.1 = jsRound ((a.match_percentage).getD 0) ∧
    displayedPercent a = jsRound ((a.match_percentage).getD 0) :=
  ⟨rfl, rfl, rfl, rfl, rfl⟩

/-- C9: the Reset-filters handler of the current CareerMatches component
references setSalaryFilter, which is not among the identifiers in scope
in this version of the component, so on a filter state that excludes
every match (where the control is shown) clicking it raises a
ReferenceError instead of completing the reset. -/
theorem reset_filters_reference_error :
    "setSalaryFilter" ∈ resetFiltersHandlerRefs ∧
    "setSalaryFilter" ∉ careerMatchesScope ∧
    filteredMatches "healthcare" [sampleMatch] = [] ∧
    runResetFiltersHandler { industryFilter := "healthcare" } =
      Except.error "ReferenceError: setSalaryFilter is not defined" := by
  refine ⟨by decide, by decide, by decide, rfl⟩
